import Mathlib

/-!
Verification of the file-processing adapter (`src/main.py`).

The program is a single function `parse_file` that globs a fixed input
directory, sends the first file found to a fixed HTTP endpoint as a
multipart POST, and writes the returned text to a fixed output directory,
translating every exception into a result dictionary.

The embedding below models:
  * the filesystem as an association list from directory path to the list
    of files it holds (a missing key is a missing directory; `glob` on a
    missing directory yields `[]`, as `pathlib.Path.glob` does), plus a
    flag describing whether `write_text` would raise;
  * the HTTP layer as an oracle `HttpRequest → HttpOutcome` standing for
    the behaviour of `requests.post` (timeout, connection error, other
    exception, or a response carrying a status code, a body text, and a
    JSON parse outcome);
  * the returned Python dictionary as a record with one optional field
    per key the code can put in it.

`parse_file` returns the result record, the final filesystem, and the
list of HTTP requests it issued, in order.
-/

namespace FileProcessing

/-- Entry of a directory: a file name together with its content (the byte
content of an input file and the text content of an output file are both
modelled as `String`). -/
structure FileEntry where
  name : String
  data : String
deriving Repr, DecidableEq

/-- Filesystem state: directories with their files, and whether a
`write_text` call would raise an exception (`some msg` raises with message
`msg`). -/
structure FS where
  dirFiles : List (String × List FileEntry)
  writeError : Option String
deriving Repr, DecidableEq

/-- Listing a directory, as `Path(dir).glob("*")`: the files of the
directory, or `[]` when the directory does not exist. -/
def FS.glob (fs : FS) (dir : String) : List FileEntry :=
  match fs.dirFiles.lookup dir with
  | some files => files
  | none => []

/-- Whether a directory exists. -/
def FS.dirExists (fs : FS) (dir : String) : Bool :=
  (fs.dirFiles.lookup dir).isSome

/-- Creation of a directory as `Path.mkdir(parents=True, exist_ok=True)`:
a no-op when the directory exists, otherwise it is added, empty. -/
def FS.mkdirP (fs : FS) (dir : String) : FS :=
  if (fs.dirFiles.lookup dir).isSome then fs
  else { fs with dirFiles := (dir, []) :: fs.dirFiles }

/-- Replacement or insertion of a file in a directory listing. -/
def updateFile : List FileEntry → String → String → List FileEntry
  | [], name, content => [⟨name, content⟩]
  | e :: rest, name, content =>
    if e.name = name then ⟨name, content⟩ :: rest
    else e :: updateFile rest name content

/-- Writing a file, as `Path.write_text`: every listing of the directory
gains (or overwrites) the file. -/
def FS.writeText (fs : FS) (dir name content : String) : FS :=
  { fs with
    dirFiles := fs.dirFiles.map fun p =>
      if p.1 = dir then (p.1, updateFile p.2 name content) else p }

/-- Reading a file back: the content of the named file in the first
listing recorded for the directory, when both exist. -/
def FS.readFile (fs : FS) (dir name : String) : Option String :=
  match fs.dirFiles.lookup dir with
  | none => none
  | some files => (files.find? fun e => e.name == name).map (·.data)

/-- Index of the last dot of a string, if any. -/
def lastDotIdx (s : String) : Option Nat :=
  ((List.range s.length).filter fun i => s.data.get? i = some '.').getLast?

/-- Python `pathlib.PurePath.stem`: the name with its last suffix removed,
where a suffix requires the last dot to be neither the first nor past the
last character. -/
def pyStem (s : String) : String :=
  match lastDotIdx s with
  | some i => if 0 < i ∧ i + 1 < s.length then String.mk (s.data.take i) else s
  | none => s

/-- Fixed input directory of the program (`DATA_INPUTS` in the source). -/
def DATA_INPUTS : String := "data/inputs/input"

/-- Fixed output directory of the program (`DATA_OUTPUTS` in the source). -/
def DATA_OUTPUTS : String := "data/outputs"

/-- Fixed API base URL of the program (`API_BASE_URL` in the source). -/
def API_BASE_URL : String := "http://10.0.0.111:31475"

/-- The multipart POST request `parse_file` builds: URL, the one file
field, query parameters, timeout, and the (absent) authentication data. -/
structure HttpRequest where
  url : String
  fileFieldName : String
  fileName : String
  fileData : String
  contentType : String
  paramFormat : String
  paramCache : Bool
  timeoutSeconds : Nat
  auth : Option String
deriving Repr, DecidableEq

/-- JSON object of the response body, restricted to the keys the code
reads; an absent key is `none`, as `dict.get` sees it. -/
structure JsonObj where
  code : Option Int
  message : Option String
  content : Option String
deriving Repr, DecidableEq

/-- Outcome of `response.json()`: a JSON object, or an exception. -/
inductive JsonResult where
  | invalid (msg : String)
  | obj (o : JsonObj)
deriving Repr, DecidableEq

/-- An HTTP response: status code, body text, and JSON parse outcome. -/
structure HttpResponse where
  status_code : Nat
  text : String
  jsonBody : JsonResult
deriving Repr, DecidableEq

/-- Behaviour of one call to `requests.post`. -/
inductive HttpOutcome where
  | timeout
  | connectionError
  | otherException (msg : String)
  | response (r : HttpResponse)
deriving Repr, DecidableEq

/-- Whether `response.raise_for_status()` raises `HTTPError`: it does
exactly on 4xx and 5xx status codes. -/
def raiseForStatusRaises (s : Nat) : Bool :=
  decide (400 ≤ s ∧ s < 600)

/-- The result dictionary of `parse_file`, one optional field per key the
code can put in it. -/
structure ParseResult where
  success : Bool
  message : Option String := none
  content : Option String := none
  input_file : Option String := none
  output_file : Option String := none
  error : Option String := none
  error_code : Option String := none
deriving Repr, DecidableEq

/-- Everything one invocation of `parse_file` produces: the returned
dictionary, the final filesystem, and the HTTP requests issued in order. -/
structure Invocation where
  result : ParseResult
  fs : FS
  requests : List HttpRequest
deriving Repr, DecidableEq

/-- The request the source builds for the chosen input file:
`requests.post(url, files={'file': (name, f, 'application/octet-stream')},
params={'format': 'md', 'cache': True}, timeout=300)` with
`url = f"{API_BASE_URL}/parse"` and no authentication. -/
def buildRequest (f : FileEntry) : HttpRequest :=
  { url := API_BASE_URL ++ "/parse"
    fileFieldName := "file"
    fileName := f.name
    fileData := f.data
    contentType := "application/octet-stream"
    paramFormat := "md"
    paramCache := true
    timeoutSeconds := 300
    auth := none }

/-- The `parse_file` function of `src/main.py`, step for step: glob the
input directory, fail with `NO_INPUT_FILE` when empty, POST the first
file, translate `Timeout` / `ConnectionError` / `HTTPError` / any other
exception into the corresponding failure dictionary, fail with
`PARSE_FAILED` when the JSON `code` is not 200, otherwise create the
output directory, write the `content` field (defaulted to `""`) to
`<stem>_parsed.md`, and return the success dictionary. -/
def parse_file (fs : FS) (post : HttpRequest → HttpOutcome) : Invocation :=
  let input_files := fs.glob DATA_INPUTS
  match input_files with
  | [] =>
    { result := { success := false
                  error := some "未找到输入文件"
                  error_code := some "NO_INPUT_FILE" }
      fs := fs, requests := [] }
  | input_file :: _ =>
    let req := buildRequest input_file
    match post req with
    | .timeout =>
      { result := { success := false
                    error := some "请求超时，文件可能过大或服务器响应缓慢"
                    error_code := some "TIMEOUT" }
        fs := fs, requests := [req] }
    | .connectionError =>
      { result := { success := false
                    error := some ("无法连接到服务器 " ++ API_BASE_URL)
                    error_code := some "CONNECTION_ERROR" }
        fs := fs, requests := [req] }
    | .otherException msg =>
      { result := { success := false
                    error := some msg
                    error_code := some "UNEXPECTED_ERROR" }
        fs := fs, requests := [req] }
    | .response resp =>
      if raiseForStatusRaises resp.status_code then
        { result := { success := false
                      error := some ("HTTP 错误: " ++ toString resp.status_code
                        ++ " - " ++ resp.text)
                      error_code := some "HTTP_ERROR" }
          fs := fs, requests := [req] }
      else
        match resp.jsonBody with
        | .invalid msg =>
          { result := { success := false
                        error := some msg
                        error_code := some "UNEXPECTED_ERROR" }
            fs := fs, requests := [req] }
        | .obj result =>
          if result.code ≠ some 200 then
            { result := { success := false
                          error := some (result.message.getD "解析失败")
                          error_code := some "PARSE_FAILED" }
              fs := fs, requests := [req] }
          else
            let content := result.content.getD ""
            let fs1 := fs.mkdirP DATA_OUTPUTS
            let output_filename := pyStem input_file.name ++ "_parsed.md"
            match fs.writeError with
            | some msg =>
              { result := { success := false
                            error := some msg
                            error_code := some "UNEXPECTED_ERROR" }
                fs := fs1, requests := [req] }
            | none =>
              { result := { success := true
                            message := some "文件解析成功"
                            content := some content
                            input_file := some input_file.name
                            output_file := some output_filename }
                fs := fs1.writeText DATA_OUTPUTS output_filename content
                requests := [req] }

/-! Helper lemmas about the filesystem model. -/

lemma find?_updateFile (files : List FileEntry) (name content : String) :
    (updateFile files name content).find? (fun e => e.name == name)
      = some ⟨name, content⟩ := by
  induction files with
  | nil => simp [updateFile, List.find?]
  | cons e rest ih =>
    by_cases h : e.name = name
    · simp [updateFile, h, List.find?]
    · have hb : (e.name == name) = false := beq_eq_false_iff_ne.mpr h
      simp [updateFile, h, hb, List.find?_cons, ih]

lemma lookup_map_update (l : List (String × List FileEntry))
    (dir name content : String) (files : List FileEntry)
    (h : l.lookup dir = some files) :
    (l.map fun p =>
        if p.1 = dir then (p.1, updateFile p.2 name content) else p).lookup dir
      = some (updateFile files name content) := by
  induction l with
  | nil => simp [List.lookup] at h
  | cons p rest ih =>
    obtain ⟨k, v⟩ := p
    simp only [List.map_cons]
    by_cases hp : k = dir
    · subst hp
      simp [List.lookup] at h
      rw [if_pos rfl]
      simp [List.lookup, h]
    · have hb : (dir == k) = false := beq_eq_false_iff_ne.mpr fun e => hp e.symm
      simp only [List.lookup, hb] at h
      rw [if_neg hp]
      simp only [List.lookup, hb]
      exact ih h

lemma lookup_mkdirP_self (fs : FS) (dir : String) :
    (fs.mkdirP dir).dirFiles.lookup dir
      = some ((fs.dirFiles.lookup dir).getD []) := by
  unfold FS.mkdirP
  cases h : fs.dirFiles.lookup dir <;> simp [h, List.lookup]

lemma readFile_mkdirP_writeText (fs : FS) (dir name content : String) :
    ((fs.mkdirP dir).writeText dir name content).readFile dir name
      = some content := by
  unfold FS.readFile FS.writeText
  simp only
  rw [lookup_map_update _ _ _ _ _ (lookup_mkdirP_self fs dir)]
  simp [find?_updateFile]

lemma dirExists_mkdirP_writeText (fs : FS) (dir name content : String) :
    ((fs.mkdirP dir).writeText dir name content).dirExists dir = true := by
  unfold FS.dirExists FS.writeText
  simp only
  rw [lookup_map_update _ _ _ _ _ (lookup_mkdirP_self fs dir)]
  simp

/-- An invocation issues no request when the input listing is empty, and
exactly the one built request otherwise, whatever the outcome. -/
lemma parse_file_requests_eq (fs : FS) (post : HttpRequest → HttpOutcome) :
    (fs.glob DATA_INPUTS = [] ∧ (parse_file fs post).requests = []) ∨
      ∃ f rest, fs.glob DATA_INPUTS = f :: rest ∧
        (parse_file fs post).requests = [buildRequest f] := by
  cases h : fs.glob DATA_INPUTS with
  | nil => left; exact ⟨rfl, by simp [parse_file, h]⟩
  | cons f rest =>
    right
    refine ⟨f, rest, rfl, ?_⟩
    simp only [parse_file, h]
    cases post (buildRequest f) with
    | timeout => rfl
    | connectionError => rfl
    | otherException msg => rfl
    | response resp =>
      by_cases hs : raiseForStatusRaises resp.status_code
      · simp [hs]
      · simp only [hs, if_false, Bool.false_eq_true]
        cases hj : resp.jsonBody with
        | invalid msg => rfl
        | obj o =>
          by_cases hc : o.code = some 200
          · simp only [hc, ne_eq, not_true_eq_false, if_false]
            cases fs.writeError <;> rfl
          · simp [hc]

/-- Full characterisation of the success path: a nonempty listing, a
response that does not raise, a JSON object with `code = 200`, and a
working `write_text` produce exactly the success dictionary, the written
output file, and the one request. -/
lemma parse_file_success_eq (fs : FS) (post : HttpRequest → HttpOutcome)
    (f : FileEntry) (rest : List FileEntry) (resp : HttpResponse) (o : JsonObj)
    (hglob : fs.glob DATA_INPUTS = f :: rest)
    (hpost : post (buildRequest f) = .response resp)
    (hstatus : raiseForStatusRaises resp.status_code = false)
    (hjson : resp.jsonBody = .obj o)
    (hcode : o.code = some 200)
    (hwrite : fs.writeError = none) :
    parse_file fs post =
      { result := { success := true
                    message := some "文件解析成功"
                    content := some (o.content.getD "")
                    input_file := some f.name
                    output_file := some (pyStem f.name ++ "_parsed.md") }
        fs := (fs.mkdirP DATA_OUTPUTS).writeText DATA_OUTPUTS
          (pyStem f.name ++ "_parsed.md") (o.content.getD "")
        requests := [buildRequest f] } := by
  simp only [parse_file, hglob, hpost, hstatus, hjson, hcode, hwrite,
    Bool.false_eq_true, if_false, ne_eq, not_true_eq_false]

/-! Concrete fixtures used by the witnesses, mirroring the test fixture of
`tests/test_main.py`: one `test.pdf` in the input directory, and an API
answering `{'code': 200, 'message': 'success', 'content': '# Test Document'}`. -/

/-- Fixture: a filesystem holding one input file. -/
def fsOneFile : FS :=
  ⟨[("data/inputs/input", [⟨"test.pdf", "Mock PDF content"⟩])], none⟩

/-- Fixture: the mocked successful API response. -/
def okResponse : HttpResponse :=
  ⟨200, "", .obj ⟨some 200, some "success", some "# Test Document"⟩⟩

/-- Fixture: an HTTP layer answering every request with `okResponse`. -/
def postOk : HttpRequest → HttpOutcome := fun _ => .response okResponse

/-- C1: when an input file exists and the POST succeeds with a JSON body
whose `code` is 200 (and the write itself does not raise), `parse_file`
returns a dictionary with `success` true whose `content` equals the
`content` field of the API response, writes exactly that text to
`data/outputs/<stem>_parsed.md` — creating `data/outputs` — and the
returned `output_file` names that file. -/
theorem C1_success_path (fs : FS) (post : HttpRequest → HttpOutcome)
    (f : FileEntry) (rest : List FileEntry) (resp : HttpResponse)
    (o : JsonObj) (c : String)
    (hglob : fs.glob DATA_INPUTS = f :: rest)
    (hpost : post (buildRequest f) = .response resp)
    (hstatus : raiseForStatusRaises resp.status_code = false)
    (hjson : resp.jsonBody = .obj o)
    (hcode : o.code = some 200)
    (hcontent : o.content = some c)
    (hwrite : fs.writeError = none) :
    (parse_file fs post).result.success = true ∧
    (parse_file fs post).result.content = some c ∧
    (parse_file fs post).result.output_file
      = some (pyStem f.name ++ "_parsed.md") ∧
    (parse_file fs post).fs.readFile DATA_OUTPUTS (pyStem f.name ++ "_parsed.md")
      = some c ∧
    (parse_file fs post).fs.dirExists DATA_OUTPUTS = true := by
  rw [parse_file_success_eq fs post f rest resp o hglob hpost hstatus hjson
    hcode hwrite]
  simp [hcontent, readFile_mkdirP_writeText, dirExists_mkdirP_writeText]

/-- Witness for C1 at the test fixture. -/
theorem C1_success_path_witness :
    (parse_file fsOneFile postOk).result.success = true ∧
    (parse_file fsOneFile postOk).result.content = some "# Test Document" ∧
    (parse_file fsOneFile postOk).result.output_file
      = some (pyStem "test.pdf" ++ "_parsed.md") ∧
    (parse_file fsOneFile postOk).fs.readFile DATA_OUTPUTS
      (pyStem "test.pdf" ++ "_parsed.md") = some "# Test Document" ∧
    (parse_file fsOneFile postOk).fs.dirExists DATA_OUTPUTS = true :=
  C1_success_path fsOneFile postOk ⟨"test.pdf", "Mock PDF content"⟩ []
    okResponse ⟨some 200, some "success", some "# Test Document"⟩
    "# Test Document" (by decide) rfl (by decide) rfl rfl rfl rfl

/-- C2: `parse_file` never raises — it is a total function of the
filesystem state and of the behaviour of the HTTP POST (including every
exception the POST can throw, which is a constructor of `HttpOutcome`) —
and every result is either a success or carries both an `error` message
and an `error_code` along with `success` false. -/
theorem C2_total_result_shape (fs : FS) (post : HttpRequest → HttpOutcome) :
    (parse_file fs post).result.success = true ∨
    ((parse_file fs post).result.success = false ∧
     (parse_file fs post).result.error.isSome = true ∧
     (parse_file fs post).result.error_code.isSome = true) := by
  cases h : fs.glob DATA_INPUTS with
  | nil => right; simp [parse_file, h]
  | cons f rest =>
    simp only [parse_file, h]
    cases post (buildRequest f) with
    | timeout => right; simp
    | connectionError => right; simp
    | otherException msg => right; simp
    | response resp =>
      by_cases hs : raiseForStatusRaises resp.status_code
      · right; simp [hs]
      · simp only [hs, if_false, Bool.false_eq_true]
        cases hj : resp.jsonBody with
        | invalid msg => right; simp
        | obj o =>
          by_cases hc : o.code = some 200
          · simp only [hc, ne_eq, not_true_eq_false, if_false]
            cases fs.writeError with
            | none => left; rfl
            | some msg => right; simp
          · right; simp [hc]

/-- Transcription of the claimed exception-to-result mapping, amended in
one place: the claim glosses `HTTPError` as "non-2xx status", while
`requests.Response.raise_for_status` raises exactly on 4xx and 5xx
status codes, and the amended mapping says so. Everything else follows
the claim's words: `Timeout` yields `TIMEOUT`, `ConnectionError` yields
`CONNECTION_ERROR`, any other exception (including a body that fails to
parse as JSON) yields `UNEXPECTED_ERROR`, and a well-formed JSON response
whose `code` is not 200 yields `PARSE_FAILED` with the response's
`message` as the error; each of these results has `success` false. -/
def claimedErrorMapping (outcome : HttpOutcome) (r : ParseResult) : Prop :=
  match outcome with
  | .timeout => r.success = false ∧ r.error_code = some "TIMEOUT"
  | .connectionError => r.success = false ∧ r.error_code = some "CONNECTION_ERROR"
  | .otherException _ => r.success = false ∧ r.error_code = some "UNEXPECTED_ERROR"
  | .response resp =>
    if 400 ≤ resp.status_code ∧ resp.status_code < 600 then
      r.success = false ∧ r.error_code = some "HTTP_ERROR"
    else
      match resp.jsonBody with
      | .invalid _ => r.success = false ∧ r.error_code = some "UNEXPECTED_ERROR"
      | .obj o =>
        if o.code ≠ some 200 then
          r.success = false ∧ r.error_code = some "PARSE_FAILED" ∧
          ∀ m, o.message = some m → r.error = some m
        else True

/-- Fixture: an HTTP layer answering every request with a 300 status and a
well-formed success body. -/
def post300 : HttpRequest → HttpOutcome := fun _ =>
  .response ⟨300, "", .obj ⟨some 200, none, some "ok"⟩⟩

/-- Fixture: an HTTP layer timing out on every request. -/
def postTimeout : HttpRequest → HttpOutcome := fun _ => .timeout

/-- C3, counterexample to the claim as stated: a response with status 300
is non-2xx, yet `parse_file` does not produce `HTTP_ERROR` — it succeeds,
because `raise_for_status` only raises on 4xx/5xx. -/
theorem C3_counterexample :
    ¬ (200 ≤ 300 ∧ 300 < 300) ∧
    (parse_file fsOneFile post300).result.error_code ≠ some "HTTP_ERROR" ∧
    (parse_file fsOneFile post300).result.success = true := by
  decide

/-- C3, amended: the exception-to-result mapping of `parse_file` is
exactly the claimed one, with `HTTPError` arising on 4xx/5xx status
codes (not on every non-2xx status). -/
theorem C3_amended_mapping (fs : FS) (post : HttpRequest → HttpOutcome)
    (f : FileEntry) (rest : List FileEntry)
    (hglob : fs.glob DATA_INPUTS = f :: rest) :
    claimedErrorMapping (post (buildRequest f)) (parse_file fs post).result := by
  simp only [parse_file, hglob]
  cases post (buildRequest f) with
  | timeout => exact ⟨rfl, rfl⟩
  | connectionError => exact ⟨rfl, rfl⟩
  | otherException msg => exact ⟨rfl, rfl⟩
  | response resp =>
    by_cases hs : 400 ≤ resp.status_code ∧ resp.status_code < 600
    · have hb : raiseForStatusRaises resp.status_code = true := by
        simp [raiseForStatusRaises, hs]
      simp only [claimedErrorMapping, hb, if_true, hs]
      simp
    · have hb : raiseForStatusRaises resp.status_code = false := by
        simp only [raiseForStatusRaises, decide_eq_false_iff_not]
        exact hs
      simp only [claimedErrorMapping, hb, hs, if_false, Bool.false_eq_true]
      cases hj : resp.jsonBody with
      | invalid msg => simp
      | obj o =>
        dsimp only
        by_cases hc : o.code = some 200
        · simp [hc]
        · simp only [ne_eq, hc, not_false_eq_true, if_true]
          refine ⟨trivial, trivial, ?_⟩
          intro m hm
          simp [hm]

/-- Witness for C3's amended mapping at the timeout fixture. -/
theorem C3_amended_mapping_witness :
    claimedErrorMapping (postTimeout (buildRequest ⟨"test.pdf", "Mock PDF content"⟩))
      (parse_file fsOneFile postTimeout).result :=
  C3_amended_mapping fsOneFile postTimeout ⟨"test.pdf", "Mock PDF content"⟩ []
    (by decide)

/-- C4: when the input directory holds files, `parse_file` issues exactly
one request, and that request carries the name and the content of the
first file of the glob listing — no other file is read or sent. -/
theorem C4_first_file_only (fs : FS) (post : HttpRequest → HttpOutcome)
    (f : FileEntry) (rest : List FileEntry)
    (hglob : fs.glob DATA_INPUTS = f :: rest) :
    (parse_file fs post).requests = [buildRequest f] ∧
    (buildRequest f).fileName = f.name ∧
    (buildRequest f).fileData = f.data := by
  rcases parse_file_requests_eq fs post with ⟨h0, -⟩ | ⟨f', rest', hg', hr⟩
  · rw [hglob] at h0; cases h0
  · rw [hglob] at hg'
    obtain ⟨hf, -⟩ := List.cons.injEq .. ▸ hg'
    exact ⟨hf ▸ hr, rfl, rfl⟩

/-- Witness for C4: the test fixture with a second file present. -/
theorem C4_first_file_only_witness :
    (parse_file
        ⟨[("data/inputs/input",
            [⟨"test.pdf", "Mock PDF content"⟩, ⟨"other.pdf", "other"⟩])], none⟩
        postOk).requests
      = [buildRequest ⟨"test.pdf", "Mock PDF content"⟩] ∧
    (buildRequest (⟨"test.pdf", "Mock PDF content"⟩ : FileEntry)).fileName
      = "test.pdf" ∧
    (buildRequest (⟨"test.pdf", "Mock PDF content"⟩ : FileEntry)).fileData
      = "Mock PDF content" :=
  C4_first_file_only
    ⟨[("data/inputs/input",
        [⟨"test.pdf", "Mock PDF content"⟩, ⟨"other.pdf", "other"⟩])], none⟩
    postOk ⟨"test.pdf", "Mock PDF content"⟩ [⟨"other.pdf", "other"⟩] (by decide)

/-- C5: every request `parse_file` issues is the multipart POST to the one
fixed endpoint `http://10.0.0.111:31475/parse` with query parameters
`format = 'md'` and `cache = True`, and carries no authentication data. -/
theorem C5_fixed_endpoint (fs : FS) (post : HttpRequest → HttpOutcome)
    (r : HttpRequest) (hr : r ∈ (parse_file fs post).requests) :
    r.url = "http://10.0.0.111:31475/parse" ∧
    r.paramFormat = "md" ∧
    r.paramCache = true ∧
    r.auth = none := by
  rcases parse_file_requests_eq fs post with ⟨-, h⟩ | ⟨f, rest, -, h⟩
  · rw [h] at hr; cases hr
  · rw [h] at hr
    rcases List.mem_singleton.mp hr with rfl
    exact ⟨rfl, rfl, rfl, rfl⟩

/-- Witness for C5 at the test fixture. -/
theorem C5_fixed_endpoint_witness :
    (buildRequest (⟨"test.pdf", "Mock PDF content"⟩ : FileEntry)).url
      = "http://10.0.0.111:31475/parse" ∧
    (buildRequest (⟨"test.pdf", "Mock PDF content"⟩ : FileEntry)).paramFormat
      = "md" ∧
    (buildRequest (⟨"test.pdf", "Mock PDF content"⟩ : FileEntry)).paramCache
      = true ∧
    (buildRequest (⟨"test.pdf", "Mock PDF content"⟩ : FileEntry)).auth
      = none :=
  C5_fixed_endpoint fsOneFile postOk
    (buildRequest ⟨"test.pdf", "Mock PDF content"⟩) (by decide)

/-- C6: `parse_file` performs the HTTP POST at most once per invocation,
whatever the filesystem state and whatever the outcome of the POST —
there is no retry logic. -/
theorem C6_at_most_one_request (fs : FS) (post : HttpRequest → HttpOutcome) :
    (parse_file fs post).requests.length ≤ 1 := by
  rcases parse_file_requests_eq fs post with ⟨-, h⟩ | ⟨f, rest, -, h⟩ <;>
    simp [h]

/-- C7: `parse_file` is stateless and deterministic relative to its
environment: two invocations that observe the same input-directory
listing (names and bytes), the same behaviour of the HTTP POST, and the
same behaviour of the output write return equal dictionaries — nothing
else about the filesystem, and no state carried between calls, influences
the result. -/
theorem C7_deterministic (fs1 fs2 : FS)
    (post1 post2 : HttpRequest → HttpOutcome)
    (hg : fs1.glob DATA_INPUTS = fs2.glob DATA_INPUTS)
    (hw : fs1.writeError = fs2.writeError)
    (hp : ∀ r, post1 r = post2 r) :
    (parse_file fs1 post1).result = (parse_file fs2 post2).result := by
  cases h : fs2.glob DATA_INPUTS with
  | nil =>
    have h1 : fs1.glob DATA_INPUTS = [] := hg.trans h
    simp [parse_file, h1, h]
  | cons f rest =>
    have h1 : fs1.glob DATA_INPUTS = f :: rest := hg.trans h
    simp only [parse_file, h1, h, hp]
    cases post2 (buildRequest f) with
    | timeout => rfl
    | connectionError => rfl
    | otherException msg => rfl
    | response resp =>
      by_cases hs : raiseForStatusRaises resp.status_code
      · simp [hs]
      · simp only [hs, if_false, Bool.false_eq_true]
        cases hj : resp.jsonBody with
        | invalid msg => rfl
        | obj o =>
          by_cases hc : o.code = some 200
          · simp only [hc, ne_eq, not_true_eq_false, if_false]
            rw [hw]
            cases fs2.writeError <;> rfl
          · simp [hc]

/-- Witness for C7: two filesystems equal on the observations but
different elsewhere give the same dictionary. -/
theorem C7_deterministic_witness :
    (parse_file fsOneFile postOk).result =
      (parse_file
        ⟨[("data/inputs/input", [⟨"test.pdf", "Mock PDF content"⟩]),
          ("data/junk", [⟨"junk.txt", "junk"⟩])], none⟩ postOk).result :=
  C7_deterministic fsOneFile
    ⟨[("data/inputs/input", [⟨"test.pdf", "Mock PDF content"⟩]),
      ("data/junk", [⟨"junk.txt", "junk"⟩])], none⟩
    postOk postOk (by decide) rfl (fun _ => rfl)

/-- C8: error atomicity — whenever `parse_file` fails with error code
`NO_INPUT_FILE`, `TIMEOUT`, `CONNECTION_ERROR`, `HTTP_ERROR` or
`PARSE_FAILED`, the filesystem is returned unchanged: no output file has
been written and the output directory has not been created by the call. -/
theorem C8_error_atomicity (fs : FS) (post : HttpRequest → HttpOutcome)
    (c : String)
    (hc : (parse_file fs post).result.error_code = some c)
    (hmem : c ∈ (["NO_INPUT_FILE", "TIMEOUT", "CONNECTION_ERROR",
      "HTTP_ERROR", "PARSE_FAILED"] : List String)) :
    (parse_file fs post).fs = fs := by
  cases h : fs.glob DATA_INPUTS with
  | nil => simp [parse_file, h]
  | cons f rest =>
    simp only [parse_file, h] at hc ⊢
    cases hp : post (buildRequest f) with
    | timeout => rfl
    | connectionError => rfl
    | otherException msg => rfl
    | response resp =>
      simp only [hp] at hc
      by_cases hs : raiseForStatusRaises resp.status_code
      · simp [hs]
      · simp only [hs, if_false, Bool.false_eq_true] at hc ⊢
        cases hj : resp.jsonBody with
        | invalid msg => rfl
        | obj o =>
          simp only [hj] at hc
          by_cases h200 : o.code = some 200
          · simp only [h200, ne_eq, not_true_eq_false, if_false] at hc ⊢
            cases hfw : fs.writeError with
            | some msg =>
              simp only [hfw] at hc
              simp only [Option.some.injEq] at hc
              subst hc
              exact absurd hmem (by decide)
            | none =>
              simp only [hfw] at hc
              simp at hc
          · simp [h200]

/-- Witness for C8 at the timeout fixture. -/
theorem C8_error_atomicity_witness :
    (parse_file fsOneFile postTimeout).fs = fsOneFile :=
  C8_error_atomicity fsOneFile postTimeout "TIMEOUT" (by decide) (by decide)

/-- Fixture: the arrangement of the test fixture of `tests/test_main.py` —
the input file sits directly in `data/inputs`, and `data/inputs/input`
does not exist. -/
def fsMisplaced : FS :=
  ⟨[("data/inputs", [⟨"test.pdf", "Mock PDF content"⟩])], none⟩

/-- C9: the location globbed is the directory `data/inputs/input`, not
`data/inputs`; whenever `data/inputs/input` is absent or empty — in
particular when a file sits directly in `data/inputs` — `parse_file`
returns `success` false with `NO_INPUT_FILE` and contacts no endpoint. -/
theorem C9_input_location (fs : FS) (post : HttpRequest → HttpOutcome)
    (h : fs.glob "data/inputs/input" = []) :
    DATA_INPUTS = "data/inputs/input" ∧
    (parse_file fs post).result.success = false ∧
    (parse_file fs post).result.error_code = some "NO_INPUT_FILE" ∧
    (parse_file fs post).requests = [] := by
  have hg : fs.glob DATA_INPUTS = [] := h
  refine ⟨rfl, ?_, ?_, ?_⟩ <;> simp [parse_file, hg]

/-- Witness for C9: a file directly in `data/inputs` is not found. -/
theorem C9_input_location_witness :
    DATA_INPUTS = "data/inputs/input" ∧
    (parse_file fsMisplaced postOk).result.success = false ∧
    (parse_file fsMisplaced postOk).result.error_code = some "NO_INPUT_FILE" ∧
    (parse_file fsMisplaced postOk).requests = [] :=
  C9_input_location fsMisplaced postOk (by decide)

/-- Fixture: an HTTP layer answering with `code` 200 and no `content`
field. -/
def postNoContent : HttpRequest → HttpOutcome := fun _ =>
  .response ⟨200, "", .obj ⟨some 200, some "success", none⟩⟩

/-- C10: a JSON response whose `code` is 200 but which lacks a `content`
field still succeeds, with `content` equal to the empty string, and an
empty output file is written. -/
theorem C10_missing_content (fs : FS) (post : HttpRequest → HttpOutcome)
    (f : FileEntry) (rest : List FileEntry) (resp : HttpResponse) (o : JsonObj)
    (hglob : fs.glob DATA_INPUTS = f :: rest)
    (hpost : post (buildRequest f) = .response resp)
    (hstatus : raiseForStatusRaises resp.status_code = false)
    (hjson : resp.jsonBody = .obj o)
    (hcode : o.code = some 200)
    (hcontent : o.content = none)
    (hwrite : fs.writeError = none) :
    (parse_file fs post).result.success = true ∧
    (parse_file fs post).result.content = some "" ∧
    (parse_file fs post).fs.readFile DATA_OUTPUTS (pyStem f.name ++ "_parsed.md")
      = some "" := by
  rw [parse_file_success_eq fs post f rest resp o hglob hpost hstatus hjson
    hcode hwrite]
  simp [hcontent, readFile_mkdirP_writeText]

/-- Witness for C10 at the content-less fixture. -/
theorem C10_missing_content_witness :
    (parse_file fsOneFile postNoContent).result.success = true ∧
    (parse_file fsOneFile postNoContent).result.content = some "" ∧
    (parse_file fsOneFile postNoContent).fs.readFile DATA_OUTPUTS
      (pyStem "test.pdf" ++ "_parsed.md") = some "" :=
  C10_missing_content fsOneFile postNoContent
    ⟨"test.pdf", "Mock PDF content"⟩ []
    ⟨200, "", .obj ⟨some 200, some "success", none⟩⟩
    ⟨some 200, some "success", none⟩
    (by decide) rfl (by decide) rfl rfl rfl rfl

end FileProcessing
